import Mathlib

/-!
Verification development for the peer synchronization protocol handler
(src/src/node/p2p_server/request_response_handler.rs of clutch-node).

The handlers are embedded shallowly: a message is a list of byte values,
the chain storage engine is a record of query functions over an abstract
state type, and each handler returns its observable effects explicitly
(responses written to the response channel, outbound requests sent,
the resulting chain state, the per-block import log).  Runtime panics
of the Rust code (unchecked indexing, unwrap and expect on storage
results) are modelled as the error side of an Except value.
-/

/-- A wire message: a sequence of byte values. -/
abbrev Bytes := List Nat

/-- Modelled from the spec: the MessageKind discriminator; the five message
kinds of the protocol (the DirectMessageType enum is not under src). -/
inductive DirectMessageType where
  | Handshake
  | GetBlockHeaders
  | BlockHeaders
  | GetBlockBodies
  | BlockBodies
deriving DecidableEq

/-- Modelled from the spec: the fixed one-byte wire tag of each kind
(tag bytes 0..4 mapped to the five MessageKind values, in order). -/
def DirectMessageType.as_byte : DirectMessageType → Nat
  | .Handshake => 0
  | .GetBlockHeaders => 1
  | .BlockHeaders => 2
  | .GetBlockBodies => 3
  | .BlockBodies => 4

/-- Modelled from the spec: kind_of on a tag byte, total, none outside the
five defined tags (DirectMessageType::from_byte is not under src). -/
def DirectMessageType.from_byte : Nat → Option DirectMessageType
  | 0 => some .Handshake
  | 1 => some .GetBlockHeaders
  | 2 => some .BlockHeaders
  | 3 => some .GetBlockBodies
  | 4 => some .BlockBodies
  | _ => none

/-- Structural decode failure of a payload (malformed, truncated,
structurally invalid bytes). -/
inductive DecodeError where
  | malformed
deriving DecidableEq

/-- A runtime panic of a handler invocation: an out-of-bounds index, or an
unwrap / expect on a failed storage result. -/
inductive RtError where
  | indexOob
  | expectFail
deriving DecidableEq

/-- Modelled from the spec: the Handshake payload, the declared latest
block index of a peer (the Handshake struct is not under src). -/
structure Handshake where
  latest_block_index : Nat
deriving DecidableEq

/-- Modelled from the spec: the GetBlockHeaders range query descriptor
(the GetBlockHeaders struct is not under src). -/
structure GetBlockHeaders where
  start_block_index : Nat
  skip : Nat
  limit : Nat
deriving DecidableEq

/-- Modelled from the spec: a block header, the projection of a full block
that carries no body data (the BlockHeader struct is not under src). -/
structure BlockHeader where
  index : Nat
deriving DecidableEq

/-- Modelled from the spec: a full block carrying its own index
(the Block struct is not under src). -/
structure Block where
  index : Nat
  body : List Nat
deriving DecidableEq

/-- Modelled from the spec: projection of a full block to its header. -/
def Block.to_block_header (b : Block) : BlockHeader :=
  ⟨b.index⟩

/-- Modelled from the spec: the BlockHeaders payload, an ordered sequence
of block headers (the BlockHeaders struct is not under src). -/
structure BlockHeaders where
  block_headers : List BlockHeader
deriving DecidableEq

/-- Modelled from the spec: projection of a header sequence to its sequence
of block indices, order preserved (BlockHeaders::to_block_indexes is not
under src). -/
def BlockHeaders.to_block_indexes (bh : BlockHeaders) : List Nat :=
  bh.block_headers.map BlockHeader.index

/-- Modelled from the spec: the GetBlockBodies payload, an explicit
sequence of block indices to fetch (struct not under src). -/
structure GetBlockBodies where
  block_indexes : List Nat
deriving DecidableEq

/-- Modelled from the spec: the BlockBodies payload, an ordered sequence of
full blocks (struct not under src). -/
structure BlockBodies where
  blocks : List Block
deriving DecidableEq

/-- Modelled from the spec: canonical encoding of a Handshake payload
(the rlp_encoding module is out of scope; a concrete canonical,
deterministic, injective encoding with a structural decoder stands in). -/
def encodeHandshake (h : Handshake) : Bytes :=
  [h.latest_block_index]

/-- Modelled from the spec: structural decoding of a Handshake payload;
fails on malformed or truncated bytes. -/
def decodeHandshake : Bytes → Except DecodeError Handshake
  | [n] => .ok ⟨n⟩
  | _ => .error .malformed

/-- Modelled from the spec: canonical encoding of a GetBlockHeaders
payload. -/
def encodeGetBlockHeaders (g : GetBlockHeaders) : Bytes :=
  [g.start_block_index, g.skip, g.limit]

/-- Modelled from the spec: structural decoding of a GetBlockHeaders
payload. -/
def decodeGetBlockHeaders : Bytes → Except DecodeError GetBlockHeaders
  | [s, k, l] => .ok ⟨s, k, l⟩
  | _ => .error .malformed

/-- Modelled from the spec: canonical encoding of a BlockHeaders payload,
length-prefixed sequence of header indices. -/
def encodeBlockHeaders (bh : BlockHeaders) : Bytes :=
  bh.block_headers.length :: bh.block_headers.map BlockHeader.index

/-- Modelled from the spec: structural decoding of a BlockHeaders
payload. -/
def decodeBlockHeaders : Bytes → Except DecodeError BlockHeaders
  | [] => .error .malformed
  | n :: rest =>
    if rest.length = n then .ok ⟨rest.map BlockHeader.mk⟩
    else .error .malformed

/-- Modelled from the spec: canonical encoding of a GetBlockBodies
payload, length-prefixed sequence of block indices. -/
def encodeGetBlockBodies (g : GetBlockBodies) : Bytes :=
  g.block_indexes.length :: g.block_indexes

/-- Modelled from the spec: structural decoding of a GetBlockBodies
payload. -/
def decodeGetBlockBodies : Bytes → Except DecodeError GetBlockBodies
  | [] => .error .malformed
  | n :: rest =>
    if rest.length = n then .ok ⟨rest⟩
    else .error .malformed

/-- Modelled from the spec: canonical encoding of a single full block:
its index, then its length-prefixed body. -/
def encodeBlock (b : Block) : Bytes :=
  b.index :: b.body.length :: b.body

/-- Modelled from the spec: canonical encoding of a BlockBodies payload,
count-prefixed concatenation of block encodings. -/
def encodeBlockBodies (bb : BlockBodies) : Bytes :=
  bb.blocks.length :: bb.blocks.flatMap encodeBlock

/-- Modelled from the spec: structural decoding of exactly n consecutive
blocks, consuming all remaining bytes. -/
def decodeBlocksAux : Nat → Bytes → Except DecodeError (List Block)
  | 0, [] => .ok []
  | 0, _ :: _ => .error .malformed
  | n + 1, i :: len :: rest =>
    if len ≤ rest.length then
      match decodeBlocksAux n (rest.drop len) with
      | .ok blocks => .ok (⟨i, rest.take len⟩ :: blocks)
      | .error e => .error e
    else .error .malformed
  | _ + 1, _ => .error .malformed

/-- Modelled from the spec: structural decoding of a BlockBodies
payload. -/
def decodeBlockBodies : Bytes → Except DecodeError BlockBodies
  | [] => .error .malformed
  | n :: rest =>
    match decodeBlocksAux n rest with
    | .ok blocks => .ok ⟨blocks⟩
    | .error e => .error e

/-- A chain-storage query failure. -/
inductive ChainError where
  | storage
deriving DecidableEq

/-- A single-block import failure. -/
inductive ImportError where
  | invalid
deriving DecidableEq

/-- Modelled from the spec: the interface of the chain storage/validation
engine (the Blockchain type is not under src).  The engine state has
abstract type sigma; reads are functions of the state, import is a
fallible state transition. -/
structure Blockchain (σ : Type) where
  state : σ
  handshakeFn : σ → Except ChainError Handshake
  rangeFn : σ → Nat → Nat → Nat → Except ChainError (List Block)
  byIdxFn : σ → List Nat → Except ChainError (List Block)
  importFn : σ → Block → Except ImportError σ

/-- encode_message: the envelope codec, one tag byte followed by the
canonically encoded payload (the payload is passed already encoded). -/
def encode_message (t : DirectMessageType) (payload : Bytes) : Bytes :=
  t.as_byte :: payload

/-- handshake_response: read the local handshake from chain storage
(expect panics on failure) and return it as a Handshake envelope; the
received handshake value is ignored. -/
def handshake_response {σ : Type} (_handshake : Handshake) (bc : Blockchain σ) :
    Except RtError Bytes :=
  match bc.handshakeFn bc.state with
  | .ok resp => .ok (encode_message .Handshake (encodeHandshake resp))
  | .error _ => .error .expectFail

/-- get_block_headers_response: range query on chain storage (expect
panics on failure), project each block to its header, return a
BlockHeaders envelope. -/
def get_block_headers_response {σ : Type} (g : GetBlockHeaders)
    (bc : Blockchain σ) : Except RtError Bytes :=
  match bc.rangeFn bc.state g.start_block_index g.skip g.limit with
  | .ok blocks =>
    .ok (encode_message .BlockHeaders
      (encodeBlockHeaders ⟨blocks.map Block.to_block_header⟩))
  | .error _ => .error .expectFail

/-- get_block_bodies_response: index-set query on chain storage (expect
panics on failure), return a BlockBodies envelope. -/
def get_block_bodies_response {σ : Type} (g : GetBlockBodies)
    (bc : Blockchain σ) : Except RtError Bytes :=
  match bc.byIdxFn bc.state g.block_indexes with
  | .ok blocks => .ok (encode_message .BlockBodies (encodeBlockBodies ⟨blocks⟩))
  | .error _ => .error .expectFail

/-- handle_handshake_request: decode the payload; on success produce the
handshake response, on decode failure return an empty message. -/
def handle_handshake_request {σ : Type} (payload : Bytes)
    (bc : Blockchain σ) : Except RtError Bytes :=
  match decodeHandshake payload with
  | .ok h => handshake_response h bc
  | .error _ => .ok []

/-- handle_get_block_headers_request: decode the payload; on success
produce the headers response, on decode failure return an empty
message. -/
def handle_get_block_headers_request {σ : Type} (payload : Bytes)
    (bc : Blockchain σ) : Except RtError Bytes :=
  match decodeGetBlockHeaders payload with
  | .ok g => get_block_headers_response g bc
  | .error _ => .ok []

/-- handle_get_block_bodies_request: decode the payload; on success
produce the bodies response, on decode failure return an empty
message. -/
def handle_get_block_bodies_request {σ : Type} (payload : Bytes)
    (bc : Blockchain σ) : Except RtError Bytes :=
  match decodeGetBlockBodies payload with
  | .ok g => get_block_bodies_response g bc
  | .error _ => .ok []

/-- handle_request_message: read the tag byte at index 0 (panics on an
empty message), dispatch on the resolved kind; recognized request kinds
produce one response written to the response channel, anything else is
dropped without a response.  Result: the list of responses written and
the resulting chain. -/
def handle_request_message {σ : Type} (msg : Bytes) (bc : Blockchain σ) :
    Except RtError (List Bytes × Blockchain σ) :=
  match msg with
  | [] => .error .indexOob
  | t :: payload =>
    match DirectMessageType.from_byte t with
    | some .Handshake =>
      (handle_handshake_request payload bc).map (fun r => ([r], bc))
    | some .GetBlockHeaders =>
      (handle_get_block_headers_request payload bc).map (fun r => ([r], bc))
    | some .GetBlockBodies =>
      (handle_get_block_bodies_request payload bc).map (fun r => ([r], bc))
    | _ => .ok ([], bc)

/-- handle_handshake_response: decode the payload; on success read the
local handshake (unwrap panics on storage failure) and, exactly when the
local height is below the declared peer height, send one GetBlockHeaders
request with start = local height, skip = 1, limit = 100; on decode
failure do nothing.  Result: the list of requests sent. -/
def handle_handshake_response {σ : Type} (payload : Bytes)
    (bc : Blockchain σ) : Except RtError (List Bytes) :=
  match decodeHandshake payload with
  | .ok handshake =>
    match bc.handshakeFn bc.state with
    | .ok localHandshake =>
      let current_block_index := localHandshake.latest_block_index
      let received_block_index := handshake.latest_block_index
      if current_block_index < received_block_index then
        .ok [encode_message .GetBlockHeaders
          (encodeGetBlockHeaders ⟨current_block_index, 1, 100⟩)]
      else
        .ok []
    | .error _ => .error .expectFail
  | .error _ => .ok []

/-- handle_block_headers_response: decode the payload; on success project
the headers to their block indices and send one GetBlockBodies request
carrying them; on decode failure do nothing.  The chain is not touched.
Result: the list of requests sent. -/
def handle_block_headers_response (payload : Bytes) : List Bytes :=
  match decodeBlockHeaders payload with
  | .ok bh =>
    [encode_message .GetBlockBodies
      (encodeGetBlockBodies ⟨bh.to_block_indexes⟩)]
  | .error _ => []

/-- The per-block import loop of handle_block_bodies_response: attempt import_block
on every block in order; a successful import advances the
chain state, a failed import leaves it unchanged; both are logged with
the block index and the loop continues either way.  Result: the
resulting chain and the log of (index, success) entries in order. -/
def importLoop {σ : Type} (bc : Blockchain σ) :
    List Block → Blockchain σ × List (Nat × Bool)
  | [] => (bc, [])
  | b :: rest =>
    match bc.importFn bc.state b with
    | .ok s2 =>
      let r := importLoop { bc with state := s2 } rest
      (r.1, (b.index, true) :: r.2)
    | .error _ =>
      let r := importLoop bc rest
      (r.1, (b.index, false) :: r.2)

/-- handle_block_bodies_response: decode the payload; on success run the import
loop over the received blocks in order; on decode failure do
nothing. -/
def handle_block_bodies_response {σ : Type} (payload : Bytes)
    (bc : Blockchain σ) : Blockchain σ × List (Nat × Bool) :=
  match decodeBlockBodies payload with
  | .ok bb => importLoop bc bb.blocks
  | .error _ => (bc, [])

/-- handle_response_message: read the tag byte at index 0 (panics on an
empty message), dispatch on the resolved kind; unrecognized kinds are
dropped.  Result: the list of requests sent, the resulting chain, and
the import log. -/
def handle_response_message {σ : Type} (msg : Bytes) (bc : Blockchain σ) :
    Except RtError (List Bytes × Blockchain σ × List (Nat × Bool)) :=
  match msg with
  | [] => .error .indexOob
  | t :: payload =>
    match DirectMessageType.from_byte t with
    | some .Handshake =>
      (handle_handshake_response payload bc).map (fun rs => (rs, bc, []))
    | some .BlockHeaders =>
      .ok (handle_block_headers_response payload, bc, [])
    | some .BlockBodies =>
      let r := handle_block_bodies_response payload bc
      .ok ([], r.1, r.2)
    | _ => .ok ([], bc, [])

/-- A trivial chain over the unit state whose reads are fixed: the local
handshake read yields height n, range and index queries yield no blocks,
every import succeeds without changing the state. -/
def bcConst (n : Nat) : Blockchain Unit where
  state := ()
  handshakeFn := fun _ => .ok ⟨n⟩
  rangeFn := fun _ _ _ _ => .ok []
  byIdxFn := fun _ _ => .ok []
  importFn := fun s _ => .ok s

/-- The import log lists exactly the indices of the given blocks, in the
given order, whatever the individual import results are. -/
theorem importLoop_log_indexes {σ : Type} :
    ∀ (bs : List Block) (bc : Blockchain σ),
      ((importLoop bc bs).2).map Prod.fst = bs.map Block.index := by
  intro bs
  induction bs with
  | nil => intro bc; rfl
  | cons b rest ih =>
    intro bc
    unfold importLoop
    cases hx : bc.importFn bc.state b with
    | ok s2 => simp [ih]
    | error e => simp [ih]

/-- Claim C1: for every successfully decoded Handshake response declaring
peer height H_peer, read against a local chain whose handshake read
yields H_local, a GetBlockHeaders request is sent to the peer exactly
when H_local < H_peer, and that request carries start_block_index =
H_local, skip = 1 and limit = 100; when H_local >= H_peer no request is
sent. -/
theorem handshake_response_sync_trigger {σ : Type} (bc : Blockchain σ)
    (payload : Bytes) (hpeer hlocal : Handshake)
    (hdec : decodeHandshake payload = .ok hpeer)
    (hloc : bc.handshakeFn bc.state = .ok hlocal) :
    handle_handshake_response payload bc =
      .ok (if hlocal.latest_block_index < hpeer.latest_block_index then
        [encode_message .GetBlockHeaders
          (encodeGetBlockHeaders ⟨hlocal.latest_block_index, 1, 100⟩)]
      else []) := by
  simp only [handle_handshake_response, hdec, hloc]
  split <;> simp [*]

/-- Witness for C1: with local height 3 and declared peer height 7, the
GetBlockHeaders request with start 3, skip 1, limit 100 is sent. -/
theorem handshake_response_sync_trigger_witness :
    handle_handshake_response [7] (bcConst 3) =
      .ok [encode_message .GetBlockHeaders (encodeGetBlockHeaders ⟨3, 1, 100⟩)] :=
  (handshake_response_sync_trigger (bcConst 3) [7] ⟨7⟩ ⟨3⟩ rfl rfl).trans rfl

/-- Claim C2: for every successfully decoded BlockHeaders response, the
GetBlockBodies request sent back carries exactly the indices of the
received headers, in the order the headers appeared. -/
theorem block_headers_response_forwards_indexes (payload : Bytes)
    (bh : BlockHeaders) (hdec : decodeBlockHeaders payload = .ok bh) :
    handle_block_headers_response payload =
      [encode_message .GetBlockBodies
        (encodeGetBlockBodies ⟨bh.block_headers.map BlockHeader.index⟩)] := by
  simp [handle_block_headers_response, hdec, BlockHeaders.to_block_indexes]

/-- Witness for C2: headers for indices 5, 6, 7 produce a GetBlockBodies
request for exactly [5, 6, 7]. -/
theorem block_headers_response_forwards_indexes_witness :
    handle_block_headers_response [3, 5, 6, 7] =
      [encode_message .GetBlockBodies (encodeGetBlockBodies ⟨[5, 6, 7]⟩)] :=
  (block_headers_response_forwards_indexes [3, 5, 6, 7] ⟨[⟨5⟩, ⟨6⟩, ⟨7⟩]⟩
    rfl).trans rfl

/-- Claim C3: for every successfully decoded BlockBodies response the import
loop attempts import_block on each received block in the received
order (the log carries exactly the received indices in order, whatever
the import results); a failed import leaves the chain state unchanged
and the remaining blocks are still processed from that same state (no
early abort, no rollback); a successful import advances the state and
the remaining blocks are processed from the advanced state. -/
theorem block_bodies_import_best_effort {σ : Type} (bc : Blockchain σ)
    (payload : Bytes) (bb : BlockBodies)
    (hdec : decodeBlockBodies payload = .ok bb) :
    (((handle_block_bodies_response payload bc).2).map Prod.fst =
        bb.blocks.map Block.index)
    ∧ (∀ (σ' : Type) (bc' : Blockchain σ') (b : Block) (rest : List Block)
          (e : ImportError), bc'.importFn bc'.state b = .error e →
        importLoop bc' (b :: rest) =
          ((importLoop bc' rest).1, (b.index, false) :: (importLoop bc' rest).2))
    ∧ (∀ (σ' : Type) (bc' : Blockchain σ') (b : Block) (rest : List Block)
          (s2 : σ'), bc'.importFn bc'.state b = .ok s2 →
        importLoop bc' (b :: rest) =
          ((importLoop { bc' with state := s2 } rest).1,
            (b.index, true) :: (importLoop { bc' with state := s2 } rest).2)) := by
  refine ⟨?_, ?_, ?_⟩
  · simp [handle_block_bodies_response, hdec, importLoop_log_indexes]
  · intro σ' bc' b rest e he
    simp [importLoop, he]
  · intro σ' bc' b rest s2 hs
    simp [importLoop, hs]

/-- A chain over a trace state recording imported indices, in which the import
of the block with index 6 fails and every other import
succeeds. -/
def bcRejectSix : Blockchain (List Nat) where
  state := []
  handshakeFn := fun _ => .ok ⟨0⟩
  rangeFn := fun _ _ _ _ => .ok []
  byIdxFn := fun _ _ => .ok []
  importFn := fun s b =>
    if b.index = 6 then .error .invalid else .ok (s ++ [b.index])

/-- Witness for C3: a batch of blocks 5, 6, 7 in which the import of
block 6 fails still attempts all three in order. -/
theorem block_bodies_import_best_effort_witness :
    ((handle_block_bodies_response [3, 5, 0, 6, 0, 7, 0] bcRejectSix).2).map
        Prod.fst = [5, 6, 7] :=
  (block_bodies_import_best_effort bcRejectSix [3, 5, 0, 6, 0, 7, 0]
    ⟨[⟨5, []⟩, ⟨6, []⟩, ⟨7, []⟩]⟩ rfl).1.trans rfl

/-- Claim C4: for every inbound request whose tag byte resolves to a
recognized request kind (Handshake, GetBlockHeaders, GetBlockBodies:
tag bytes 0, 1, 3) but whose payload fails to decode, the chain is not
mutated and exactly one response is written, whose message has length
zero. -/
theorem decode_failure_empty_response {σ : Type} (bc : Blockchain σ)
    (payload : Bytes) :
    (decodeHandshake payload = .error .malformed →
      handle_request_message (0 :: payload) bc = .ok ([[]], bc))
    ∧ (decodeGetBlockHeaders payload = .error .malformed →
      handle_request_message (1 :: payload) bc = .ok ([[]], bc))
    ∧ (decodeGetBlockBodies payload = .error .malformed →
      handle_request_message (3 :: payload) bc = .ok ([[]], bc)) := by
  refine ⟨fun h1 => ?_, fun h2 => ?_, fun h3 => ?_⟩
  · simp [handle_request_message, DirectMessageType.from_byte,
      handle_handshake_request, h1, Except.map]
  · simp [handle_request_message, DirectMessageType.from_byte,
      handle_get_block_headers_request, h2, Except.map]
  · simp [handle_request_message, DirectMessageType.from_byte,
      handle_get_block_bodies_request, h3, Except.map]

/-- Witness for C4: the empty payload fails to decode for all three
recognized request kinds, and each then yields one zero-length response
and an unchanged chain. -/
theorem decode_failure_empty_response_witness :
    handle_request_message [0] (bcConst 3) = .ok ([[]], bcConst 3)
    ∧ handle_request_message [1] (bcConst 3) = .ok ([[]], bcConst 3)
    ∧ handle_request_message [3] (bcConst 3) = .ok ([[]], bcConst 3) :=
  ⟨(decode_failure_empty_response (bcConst 3) []).1 rfl,
   (decode_failure_empty_response (bcConst 3) []).2.1 rfl,
   (decode_failure_empty_response (bcConst 3) []).2.2 rfl⟩

/-- Claim C5: in each of the three response builders, a failed
chain-storage query (local handshake read, range query, index-set
query) makes the invocation abort with a panic rather than return; and
whenever a builder does return a message, the underlying query
succeeded and the message is the tagged canonical encoding of the
queried data — in particular it is never empty. -/
theorem storage_failure_hard_abort {σ : Type} (bc : Blockchain σ)
    (h : Handshake) (g : GetBlockHeaders) (gb : GetBlockBodies) :
    ((∃ e, bc.handshakeFn bc.state = .error e) →
      handshake_response h bc = .error .expectFail)
    ∧ (∀ r, handshake_response h bc = .ok r →
      (∃ resp, bc.handshakeFn bc.state = .ok resp ∧
        r = encode_message .Handshake (encodeHandshake resp)) ∧ r ≠ [])
    ∧ ((∃ e, bc.rangeFn bc.state g.start_block_index g.skip g.limit = .error e) →
      get_block_headers_response g bc = .error .expectFail)
    ∧ (∀ r, get_block_headers_response g bc = .ok r →
      (∃ blocks,
        bc.rangeFn bc.state g.start_block_index g.skip g.limit = .ok blocks ∧
        r = encode_message .BlockHeaders
          (encodeBlockHeaders ⟨blocks.map Block.to_block_header⟩)) ∧ r ≠ [])
    ∧ ((∃ e, bc.byIdxFn bc.state gb.block_indexes = .error e) →
      get_block_bodies_response gb bc = .error .expectFail)
    ∧ (∀ r, get_block_bodies_response gb bc = .ok r →
      (∃ blocks, bc.byIdxFn bc.state gb.block_indexes = .ok blocks ∧
        r = encode_message .BlockBodies (encodeBlockBodies ⟨blocks⟩)) ∧ r ≠ []) := by
  refine ⟨fun ⟨e, he⟩ => ?_, fun r hr => ?_, fun ⟨e, he⟩ => ?_,
    fun r hr => ?_, fun ⟨e, he⟩ => ?_, fun r hr => ?_⟩
  · simp [handshake_response, he]
  · unfold handshake_response at hr
    cases hq : bc.handshakeFn bc.state with
    | ok resp =>
      rw [hq] at hr
      exact ⟨⟨resp, rfl, by injection hr with h2; exact h2.symm⟩,
        by injection hr with h2; simp [← h2, encode_message]⟩
    | error e => rw [hq] at hr; exact absurd hr (by simp)
  · simp [get_block_headers_response, he]
  · unfold get_block_headers_response at hr
    cases hq : bc.rangeFn bc.state g.start_block_index g.skip g.limit with
    | ok blocks =>
      rw [hq] at hr
      exact ⟨⟨blocks, rfl, by injection hr with h2; exact h2.symm⟩,
        by injection hr with h2; simp [← h2, encode_message]⟩
    | error e => rw [hq] at hr; exact absurd hr (by simp)
  · simp [get_block_bodies_response, he]
  · unfold get_block_bodies_response at hr
    cases hq : bc.byIdxFn bc.state gb.block_indexes with
    | ok blocks =>
      rw [hq] at hr
      exact ⟨⟨blocks, rfl, by injection hr with h2; exact h2.symm⟩,
        by injection hr with h2; simp [← h2, encode_message]⟩
    | error e => rw [hq] at hr; exact absurd hr (by simp)

/-- A chain over the unit state in which every storage query fails. -/
def bcAllFail : Blockchain Unit where
  state := ()
  handshakeFn := fun _ => .error .storage
  rangeFn := fun _ _ _ _ => .error .storage
  byIdxFn := fun _ _ => .error .storage
  importFn := fun s _ => .ok s

/-- Witness for C5: against a chain whose storage queries all fail, each
of the three response builders aborts with a panic. -/
theorem storage_failure_hard_abort_witness :
    handshake_response ⟨9⟩ bcAllFail = .error .expectFail
    ∧ get_block_headers_response ⟨0, 1, 100⟩ bcAllFail = .error .expectFail
    ∧ get_block_bodies_response ⟨[5, 6, 7]⟩ bcAllFail = .error .expectFail :=
  ⟨(storage_failure_hard_abort bcAllFail ⟨9⟩ ⟨0, 1, 100⟩ ⟨[5, 6, 7]⟩).1
      ⟨.storage, rfl⟩,
   (storage_failure_hard_abort bcAllFail ⟨9⟩ ⟨0, 1, 100⟩ ⟨[5, 6, 7]⟩).2.2.1
      ⟨.storage, rfl⟩,
   (storage_failure_hard_abort bcAllFail ⟨9⟩ ⟨0, 1, 100⟩ ⟨[5, 6, 7]⟩).2.2.2.2.1
      ⟨.storage, rfl⟩⟩

/-- Claim C6 (failing behavior): both dispatchers read the tag byte at
index 0 without a bounds check, so on the empty (zero-byte) envelope the
request handler and the response handler abort with an index panic
instead of treating the envelope as invalid: the handlers are not total
on the empty envelope. -/
theorem empty_envelope_handlers_panic {σ : Type} (bc : Blockchain σ) :
    handle_request_message [] bc = .error .indexOob
    ∧ handle_response_message [] bc = .error .indexOob :=
  ⟨rfl, rfl⟩

/-- Claim C7: an inbound envelope whose tag byte has no recognized
message kind is dropped by both dispatchers: no response is written, no
request is sent, the chain is unchanged and nothing is imported. -/
theorem unknown_tag_dropped {σ : Type} (bc : Blockchain σ) (t : Nat)
    (payload : Bytes) (hu : DirectMessageType.from_byte t = none) :
    handle_request_message (t :: payload) bc = .ok ([], bc)
    ∧ handle_response_message (t :: payload) bc = .ok ([], bc, []) := by
  constructor <;> simp [handle_request_message, handle_response_message, hu]

/-- Witness for C7: tag byte 255 maps to no kind; the envelope is dropped
by both dispatchers with no effect. -/
theorem unknown_tag_dropped_witness :
    handle_request_message (255 :: [1, 2]) (bcConst 3) = .ok ([], bcConst 3)
    ∧ handle_response_message (255 :: [1, 2]) (bcConst 3) =
      .ok ([], bcConst 3, []) :=
  unknown_tag_dropped (bcConst 3) 255 [1, 2] rfl

/-- Counterexample to claim C8 as stated: a recognized, successfully
decoded GetBlockHeaders request handled against a chain whose range
query fails makes the invocation abort with a panic, so zero responses
are written to the response channel for that request. -/
theorem decoded_request_one_response_cex :
    decodeGetBlockHeaders [0, 1, 100] = .ok ⟨0, 1, 100⟩
    ∧ handle_request_message (1 :: [0, 1, 100]) bcAllFail = .error .expectFail :=
  ⟨rfl, rfl⟩

/-- Claim C8 (amended): for every inbound request that is recognized and
successfully decoded and whose chain-storage read succeeds, exactly one
response is written to the response channel (never zero, never more
than one), and the chain is unchanged. -/
theorem decoded_request_one_response {σ : Type} (bc : Blockchain σ)
    (payload : Bytes) :
    (∀ h resp, decodeHandshake payload = .ok h →
      bc.handshakeFn bc.state = .ok resp →
      handle_request_message (0 :: payload) bc =
        .ok ([encode_message .Handshake (encodeHandshake resp)], bc))
    ∧ (∀ g blocks, decodeGetBlockHeaders payload = .ok g →
      bc.rangeFn bc.state g.start_block_index g.skip g.limit = .ok blocks →
      handle_request_message (1 :: payload) bc =
        .ok ([encode_message .BlockHeaders
          (encodeBlockHeaders ⟨blocks.map Block.to_block_header⟩)], bc))
    ∧ (∀ g blocks, decodeGetBlockBodies payload = .ok g →
      bc.byIdxFn bc.state g.block_indexes = .ok blocks →
      handle_request_message (3 :: payload) bc =
        .ok ([encode_message .BlockBodies (encodeBlockBodies ⟨blocks⟩)], bc)) := by
  refine ⟨fun h resp hd hq => ?_, fun g blocks hd hq => ?_,
    fun g blocks hd hq => ?_⟩
  · simp [handle_request_message, DirectMessageType.from_byte,
      handle_handshake_request, hd, handshake_response, hq, Except.map]
  · simp [handle_request_message, DirectMessageType.from_byte,
      handle_get_block_headers_request, hd, get_block_headers_response, hq,
      Except.map]
  · simp [handle_request_message, DirectMessageType.from_byte,
      handle_get_block_bodies_request, hd, get_block_bodies_response, hq,
      Except.map]

/-- Witness for C8 (amended): against a chain whose reads succeed, each
recognized and successfully decoded request kind yields exactly one
response. -/
theorem decoded_request_one_response_witness :
    handle_request_message [0, 7] (bcConst 3) =
      .ok ([encode_message .Handshake (encodeHandshake ⟨3⟩)], bcConst 3)
    ∧ handle_request_message [1, 0, 1, 100] (bcConst 3) =
      .ok ([encode_message .BlockHeaders (encodeBlockHeaders ⟨[]⟩)], bcConst 3)
    ∧ handle_request_message [3, 1, 5] (bcConst 3) =
      .ok ([encode_message .BlockBodies (encodeBlockBodies ⟨[]⟩)], bcConst 3) :=
  ⟨(decoded_request_one_response (bcConst 3) [7]).1 ⟨7⟩ ⟨3⟩ rfl rfl,
   (decoded_request_one_response (bcConst 3) [0, 1, 100]).2.1 ⟨0, 1, 100⟩ []
      rfl rfl,
   (decoded_request_one_response (bcConst 3) [1, 5]).2.2 ⟨[5]⟩ [] rfl rfl⟩

/-- Claim C10: the response to a successfully decoded Handshake request
depends only on the chain, not on the received handshake: two decoded
handshake requests handled against the same chain produce identical
effects (identical response envelopes, identical resulting chain), the
received value being ignored by handshake_response. -/
theorem handshake_request_response_uniform {σ : Type} (bc : Blockchain σ)
    (p1 p2 : Bytes) (h1 h2 : Handshake)
    (hd1 : decodeHandshake p1 = .ok h1) (hd2 : decodeHandshake p2 = .ok h2) :
    handle_request_message (0 :: p1) bc = handle_request_message (0 :: p2) bc := by
  simp [handle_request_message, DirectMessageType.from_byte,
    handle_handshake_request, hd1, hd2, handshake_response]

/-- Witness for C10: two handshake requests declaring different peer
heights, handled against the same chain, give the same response. -/
theorem handshake_request_response_uniform_witness :
    handle_request_message [0, 5] (bcConst 3) =
      handle_request_message [0, 9] (bcConst 3) :=
  handshake_request_response_uniform (bcConst 3) [5] [9] ⟨5⟩ ⟨9⟩ rfl rfl
